import Mathlib

/-!
Verification of the BouwBuddy field-collection bot (src/bot.py).

The development shallowly embeds the two core components of the program:

* the field-collection conversation (handlers `get_name` .. `get_photo`,
  `cancel`, dispatched by the `ConversationHandler` table in `main`), and
* the report-aggregation pipeline (`daily_report`, `weekly_report`,
  `build_prompt`, `generate_and_send_report`).

Modelling conventions:

* Python strings are modelled as lists of characters (`Str`).
* Python `float` values are modelled by `PyFloat`: an exact rational
  for finite values, plus signed infinity and nan.  The parse performed
  by `float(...)` is modelled by `pyFloat?`, covering the full runtime
  grammar: Unicode whitespace stripping, Unicode decimal digits,
  underscore digit separators, `inf`/`infinity`/`nan` (case
  insensitive), sign and exponent (see the doc comments).
* Timestamps (`datetime.now()`, the ISO strings stored in records) are
  modelled as integer minutes since a local epoch; `datetime.date()` is
  floor division by the number of minutes in a day.  The spec only needs
  minute resolution.  `fromisoformat` of a stored `isoformat` string is
  the identity and is therefore elided.
* Message sends, the external model call, the store append, and the
  uncaught `TypeError` raised by the `InputMediaPhoto(media_id=...)`
  call (src/bot.py line 254 — the constructor has no `media_id`
  parameter and its `media` parameter is required, so the call always
  raises) are recorded as an explicit `Effect` list; the English text of outgoing
  messages is irrelevant to every property considered here, so messages
  are identified by a `MsgKind` tag rather than by their literal text.
-/

/-- Python strings are modelled as lists of characters. -/
abbrev Str := List Char

/-- Converts a Lean string literal into the character-list model. -/
def str (s : String) : Str := s.data

/-- Conversation states.  The source declares
`NAME, FUNCTION, COMPANY, LOCATION, HOURS_WORKED, UPDATE_TEXT, PLANNING,
PHOTO = range(8)` (src/bot.py lines 45-54).  The single
`ConversationHandler.END` of the source is split into `completed`
(returned by `get_photo`) and `cancelled` (returned by `cancel`), and
`idle` models "no active conversation" (before the first `/update`). -/
inductive ConvState where
  | idle
  | NAME
  | FUNCTION
  | COMPANY
  | LOCATION
  | HOURS_WORKED
  | UPDATE_TEXT
  | PLANNING
  | PHOTO
  | completed
  | cancelled
deriving DecidableEq, Repr

/-- The result of Python `float(...)`: a finite value (represented
exactly as a rational), a signed infinity, or a nan. -/
inductive PyFloat where
  | finite (q : ℚ)
  | inf (neg : Bool)
  | nan
deriving DecidableEq, Repr

/-- The per-session dictionary `context.user_data["update_data"]`
(src/bot.py): each key is present (`some`) or absent (`none`). -/
structure UpdateData where
  name : Option Str := none
  function : Option Str := none
  company : Option Str := none
  location : Option Str := none
  hours_worked : Option PyFloat := none
  update_text : Option Str := none
  planning : Option Str := none
  photo_id : Option Str := none
  date : Option ℤ := none
deriving DecidableEq, Repr

/-- The empty dictionary: `context.user_data` after `clear()` or at the
start of a fresh conversation. -/
def emptyData : UpdateData := {}

/-- Inbound events.  Telegram delivers non-empty text messages; texts
carrying a leading bot command are routed by `filters.COMMAND`, so the
two commands relevant to the conversation (`/update`, `/cancel`) are
separate constructors and `text` carries command-free text. -/
inductive Input where
  | text (s : Str)
  | photo (fileId : Str)
  | updateCmd
  | cancelCmd
deriving DecidableEq, Repr

/-- Report windows: `daily_report` passes "Daily", `weekly_report`
passes "Weekly" (src/bot.py lines 177, 190). -/
inductive ReportType where
  | daily
  | weekly
deriving DecidableEq, Repr

/-- Tags identifying the outgoing messages of src/bot.py.  The literal
English text of each message is irrelevant to the verified properties,
so messages are identified by which `reply_text` call produced them. -/
inductive MsgKind where
  | promptName
  | promptFunction
  | promptCompany
  | promptLocation
  | promptHours
  | promptUpdateText
  | promptPlanning
  | promptPhoto
  | invalidHours
  | updateLogged
  | cancelAck
  | noUpdatesToday
  | noUpdatesWeek
  | generating
  | reportHeader
  | reportBody (s : Str)
  | photosHeader
  | noPhotos
  | genError
deriving DecidableEq, Repr

/-- The data handed to the external model call.  `build_prompt`
(src/bot.py lines 193-223) interpolates exactly the report type and the
filtered records into a fixed English template; since no verified
property depends on the template text, the prompt is modelled by its
two data arguments. -/
structure Prompt where
  report_type : ReportType
  updates_data : List UpdateData
deriving DecidableEq, Repr

/-- Observable effects of a handler: an outgoing message, the external
summarization call, one `send_media_group` transport send, one append
to the record store `db["updates"]`, or an uncaught Python `TypeError`
aborting the handler (raised by the `InputMediaPhoto(media_id=...)`
call at src/bot.py line 254, which lies outside the `try` block). -/
inductive Effect where
  | reply (m : MsgKind)
  | aiCall (p : Prompt)
  | sendMediaGroup (chunk : List (Str × Str))
  | dbAppend (r : UpdateData)
  | typeError
deriving DecidableEq, Repr

/-- The zero digit of every block of ten consecutive Unicode decimal
digits (general category `Nd`), generated from the Unicode character
database: the Unicode stability policy guarantees each decimal-digit
block is ten consecutive code points holding the values 0 to 9 in
order.  CPython `float(...)` maps every such digit to its ASCII
equivalent before parsing. -/
def ndZeros : List ℕ := [
    0x30, 0x660, 0x6f0, 0x7c0, 0x966, 0x9e6, 0xa66, 0xae6,
    0xb66, 0xbe6, 0xc66, 0xce6, 0xd66, 0xde6, 0xe50, 0xed0,
    0xf20, 0x1040, 0x1090, 0x17e0, 0x1810, 0x1946, 0x19d0, 0x1a80,
    0x1a90, 0x1b50, 0x1bb0, 0x1c40, 0x1c50, 0xa620, 0xa8d0, 0xa900,
    0xa9d0, 0xa9f0, 0xaa50, 0xabf0, 0xff10, 0x104a0, 0x10d30, 0x11066,
    0x110f0, 0x11136, 0x111d0, 0x112f0, 0x11450, 0x114d0, 0x11650, 0x116c0,
    0x11730, 0x118e0, 0x11950, 0x11c50, 0x11d50, 0x11da0, 0x16a60, 0x16ac0,
    0x16b50, 0x1d7ce, 0x1d7d8, 0x1d7e2, 0x1d7ec, 0x1d7f6, 0x1e140, 0x1e2f0,
    0x1e950, 0x1fbf0]

/-- The decimal value of a Unicode decimal digit (category `Nd`), if
the character is one. -/
def decimalDigit? (c : Char) : Option ℕ :=
  (ndZeros.find? (fun z => z ≤ c.toNat && c.toNat ≤ z + 9)).map (fun z => c.toNat - z)

/-- The code points CPython treats as whitespace when converting a
string to a float (`Py_UNICODE_ISSPACE`, the same predicate as
`str.isspace`), generated from the Unicode character database. -/
def pySpaceCodes : List ℕ := [
    0x9, 0xa, 0xb, 0xc, 0xd, 0x1c, 0x1d, 0x1e,
    0x1f, 0x20, 0x85, 0xa0, 0x1680, 0x2000, 0x2001, 0x2002,
    0x2003, 0x2004, 0x2005, 0x2006, 0x2007, 0x2008, 0x2009, 0x200a,
    0x2028, 0x2029, 0x202f, 0x205f, 0x3000]

/-- Unicode whitespace as stripped by CPython `float(...)`. -/
def pySpace (c : Char) : Bool := pySpaceCodes.contains c.toNat

/-- Strips leading and trailing Python whitespace. -/
def trimPy (l : Str) : Str :=
  ((l.dropWhile pySpace).reverse.dropWhile pySpace).reverse

/-- Consumes a run of decimal digits with optional single underscore
separators between digits (PEP 515: every underscore must be directly
preceded and followed by a digit), accumulating the value and the
number of digits consumed; stops (leaving the offending character
unconsumed) at anything else. -/
def parseDigitsAux : ℕ → ℕ → Str → ℕ × ℕ × Str
  | acc, k, [] => (acc, k, [])
  | acc, k, c :: rest =>
    match decimalDigit? c with
    | some v => parseDigitsAux (acc * 10 + v) (k + 1) rest
    | none =>
      if c = '_' ∧ 0 < k then
        match rest with
        | c2 :: rest2 =>
          match decimalDigit? c2 with
          | some v => parseDigitsAux (acc * 10 + v) (k + 1) rest2
          | none => (acc, k, c :: rest)
        | [] => (acc, k, c :: rest)
      else (acc, k, c :: rest)

/-- Consumes a digit run from the start of the string: value, number
of digits, rest. -/
def parseUDigits (l : Str) : ℕ × ℕ × Str := parseDigitsAux 0 0 l

/-- Parses an unsigned decimal mantissa (`digits`, `digits.digits`,
`digits.`, `.digits`, with underscore separators inside digit runs),
returning its exact rational value and the unconsumed rest. -/
def parseMantissa (l : Str) : Option (ℚ × Str) :=
  let ir := parseUDigits l
  match ir.2.2 with
  | '.' :: r2 =>
    let fr := parseUDigits r2
    if ir.2.1 = 0 ∧ fr.2.1 = 0 then none
    else some ((ir.1 : ℚ) + (fr.1 : ℚ) / (10 : ℚ) ^ fr.2.1, fr.2.2)
  | _ => if ir.2.1 = 0 then none else some ((ir.1 : ℚ), ir.2.2)

/-- Parses the exponent following an `e`/`E`: optional sign then a
digit run (underscores allowed), which must consume the whole rest. -/
def parseExpPart : Str → Option ℤ
  | '+' :: r =>
    let er := parseUDigits r
    if er.2.1 ≠ 0 ∧ er.2.2 = [] then some (er.1 : ℤ) else none
  | '-' :: r =>
    let er := parseUDigits r
    if er.2.1 ≠ 0 ∧ er.2.2 = [] then some (-(er.1 : ℤ)) else none
  | r =>
    let er := parseUDigits r
    if er.2.1 ≠ 0 ∧ er.2.2 = [] then some (er.1 : ℤ) else none

/-- Parses an unsigned float body (the sign has been consumed, `neg`
records it): the case-insensitive spellings `inf`, `infinity` and
`nan`, or a decimal mantissa with optional exponent. -/
def pyFloatCore (l : Str) (neg : Bool) : Option PyFloat :=
  let low := l.map Char.toLower
  if low = str "inf" ∨ low = str "infinity" then some (.inf neg)
  else if low = str "nan" then some .nan
  else
    match parseMantissa l with
    | none => none
    | some (m, rest) =>
      match rest with
      | [] => some (.finite (if neg then -m else m))
      | 'e' :: r =>
        (parseExpPart r).map (fun ex =>
          .finite (if neg then -(m * (10 : ℚ) ^ ex) else m * (10 : ℚ) ^ ex))
      | 'E' :: r =>
        (parseExpPart r).map (fun ex =>
          .finite (if neg then -(m * (10 : ℚ) ^ ex) else m * (10 : ℚ) ^ ex))
      | _ => none

/-- Models Python `float(text)` (the parse in `get_hours`, src/bot.py
line 115): strip Unicode whitespace, take an optional sign, then an
`inf`/`infinity`/`nan` spelling or a decimal literal (Unicode decimal
digits, underscore separators, optional fraction and exponent), with
finite values represented exactly as rationals.  `none` models
`ValueError`. -/
def pyFloat? (l : Str) : Option PyFloat :=
  match trimPy l with
  | '+' :: r => pyFloatCore r false
  | '-' :: r => pyFloatCore r true
  | r => pyFloatCore r false

/-- Models `text.replace(',', '.')` (src/bot.py line 115): every comma
becomes a decimal point. -/
def commaToDot (l : Str) : Str :=
  l.map (fun c => if c = ',' then '.' else c)

/-- Handler `start_update` (src/bot.py lines 76-81): prompts for the
name and enters `NAME`; `user_data` is untouched. -/
def start_update (d : UpdateData) : ConvState × UpdateData × List Effect :=
  (.NAME, d, [.reply .promptName])

/-- Handler `get_name` (src/bot.py lines 84-88): replaces
`user_data["update_data"]` wholesale by a fresh dictionary holding only
the name, then prompts for the function. -/
def get_name (s : Str) : ConvState × UpdateData × List Effect :=
  (.FUNCTION, { emptyData with name := some s }, [.reply .promptFunction])

/-- Handler `get_function` (src/bot.py lines 91-95). -/
def get_function (d : UpdateData) (s : Str) : ConvState × UpdateData × List Effect :=
  (.COMPANY, { d with function := some s }, [.reply .promptCompany])

/-- Handler `get_company` (src/bot.py lines 98-102). -/
def get_company (d : UpdateData) (s : Str) : ConvState × UpdateData × List Effect :=
  (.LOCATION, { d with company := some s }, [.reply .promptLocation])

/-- Handler `get_location` (src/bot.py lines 105-109). -/
def get_location (d : UpdateData) (s : Str) : ConvState × UpdateData × List Effect :=
  (.HOURS_WORKED, { d with location := some s }, [.reply .promptHours])

/-- Handler `get_hours` (src/bot.py lines 112-121): parses
`float(text.replace(',', '.'))`; on success stores the value and
advances, on `ValueError` re-prompts and stays in `HOURS_WORKED` with
the record untouched. -/
def get_hours (d : UpdateData) (s : Str) : ConvState × UpdateData × List Effect :=
  match pyFloat? (commaToDot s) with
  | some q => (.UPDATE_TEXT, { d with hours_worked := some q }, [.reply .promptUpdateText])
  | none => (.HOURS_WORKED, d, [.reply .invalidHours])

/-- Handler `get_update_text` (src/bot.py lines 124-128). -/
def get_update_text (d : UpdateData) (s : Str) : ConvState × UpdateData × List Effect :=
  (.PLANNING, { d with update_text := some s }, [.reply .promptPlanning])

/-- Handler `get_planning` (src/bot.py lines 131-135). -/
def get_planning (d : UpdateData) (s : Str) : ConvState × UpdateData × List Effect :=
  (.PHOTO, { d with planning := some s }, [.reply .promptPhoto])

/-- Handler `get_photo` (src/bot.py lines 138-153): stores the resolved
file id and the current timestamp, appends the completed dictionary to
`db["updates"]`, acknowledges, clears `user_data` and ends the
conversation. -/
def get_photo (d : UpdateData) (fid : Str) (now : ℤ) : ConvState × UpdateData × List Effect :=
  (.completed, emptyData,
    [.dbAppend { d with photo_id := some fid, date := some now }, .reply .updateLogged])

/-- Handler `cancel` (src/bot.py lines 156-163): clears `user_data`,
acknowledges and ends the conversation. -/
def cancel (_d : UpdateData) : ConvState × UpdateData × List Effect :=
  (.cancelled, emptyData, [.reply .cancelAck])

/-- One dispatch of an inbound event against the `ConversationHandler`
table of `main` (src/bot.py lines 268-281).  Text states use
`filters.TEXT & ~filters.COMMAND` (`filters.TEXT` rejects empty text;
commands are the separate constructors), the photo state uses
`filters.PHOTO`, `/cancel` is the fallback (only live while a
conversation is active), and `/update` is the entry point (ignored
while a conversation is active, since re-entry is not enabled).
Unmatched events leave the conversation untouched. -/
def step (σ : ConvState) (d : UpdateData) (inp : Input) (now : ℤ) :
    ConvState × UpdateData × List Effect :=
  match inp with
  | .text s =>
    if s = [] then (σ, d, [])
    else
      match σ with
      | .NAME => get_name s
      | .FUNCTION => get_function d s
      | .COMPANY => get_company d s
      | .LOCATION => get_location d s
      | .HOURS_WORKED => get_hours d s
      | .UPDATE_TEXT => get_update_text d s
      | .PLANNING => get_planning d s
      | _ => (σ, d, [])
  | .photo fid =>
    match σ with
    | .PHOTO => get_photo d fid now
    | _ => (σ, d, [])
  | .updateCmd =>
    match σ with
    | .idle => start_update d
    | .completed => start_update d
    | .cancelled => start_update d
    | _ => (σ, d, [])
  | .cancelCmd =>
    match σ with
    | .idle => (σ, d, [])
    | .completed => (σ, d, [])
    | .cancelled => (σ, d, [])
    | _ => cancel d

/-- Runs a sequence of inbound events, collecting all effects. -/
def run (σ : ConvState) (d : UpdateData) (now : ℤ) :
    List Input → ConvState × UpdateData × List Effect
  | [] => (σ, d, [])
  | i :: is =>
    let r1 := step σ d i now
    let r2 := run r1.1 r1.2.1 now is
    (r2.1, r2.2.1, r1.2.2 ++ r2.2.2)

/-- The state after each event of a run, in order. -/
def statesOf (σ : ConvState) (d : UpdateData) (now : ℤ) : List Input → List ConvState
  | [] => []
  | i :: is =>
    (step σ d i now).1 :: statesOf (step σ d i now).1 (step σ d i now).2.1 now is

/-- The records appended to `db["updates"]` among a list of effects. -/
def appendsOf (es : List Effect) : List UpdateData :=
  es.filterMap (fun e => match e with
    | .dbAppend r => some r
    | _ => none)

/-- The media chunks handed to `send_media_group` among a list of
effects, in send order. -/
def mediaSendsOf (es : List Effect) : List (List (Str × Str)) :=
  es.filterMap (fun e => match e with
    | .sendMediaGroup c => some c
    | _ => none)

/-- Minutes in a day; timestamps are integer minutes since a local
epoch midnight. -/
def minutesPerDay : ℤ := 1440

/-- Models `datetime.date()` on a minute timestamp: the local calendar
day number, i.e. floor division by the minutes of a day (`Int` `/` is
Euclidean division, which is floor division for a positive divisor,
matching Python). -/
def dateOf (t : ℤ) : ℤ := t / minutesPerDay

/-- The filter of `daily_report` (src/bot.py lines 169-173): keep the
records whose stored timestamp has the same local calendar date as
`datetime.now()`.  A record without a date (impossible for committed
records, where Python would raise `KeyError`) is excluded. -/
def dailyFilter (now : ℤ) (db : List UpdateData) : List UpdateData :=
  db.filter (fun u => match u.date with
    | some t => decide (dateOf t = dateOf now)
    | none => false)

/-- The filter of `weekly_report` (src/bot.py lines 182-185): keep the
records whose stored timestamp is at least `now` minus seven days. -/
def weeklyFilter (now : ℤ) (db : List UpdateData) : List UpdateData :=
  db.filter (fun u => match u.date with
    | some t => decide (now - 7 * minutesPerDay ≤ t)
    | none => false)

/-- Models `build_prompt` (src/bot.py lines 193-223): the fixed English
template interpolates exactly the report type and the filtered records,
so the prompt is modelled by those two arguments. -/
def build_prompt (updates_data : List UpdateData) (report_type : ReportType) : Prompt :=
  { report_type := report_type, updates_data := updates_data }

/-- Models the dictionary read `u[key]` on a committed record field
(caption construction, src/bot.py line 253).  For every record in the
store the fields read are present; a missing key, where Python would
raise `KeyError`, is modelled as the empty string. -/
def getS (o : Option Str) : Str := o.getD []

/-- The caption of one media item (src/bot.py lines 253-254):
`f"{u['name']} ({u['company']}) - {u['update_text']}"` sliced to its
first 1024 characters. -/
def caption (u : UpdateData) : Str :=
  (getS u.name ++ str " (" ++ getS u.company ++ str ") - " ++ getS u.update_text).take 1024

/-- Models `generate_and_send_report` (src/bot.py lines 226-261) with
the external model call abstracted as `summarize` (`None` models any
exception raised by the `try` block, which in the verified scenarios is
the generation call itself).  Effects appear in program order: the
"generating" notice, the external call, then either the single fixed
failure message, or the report header and body followed by the photo
section.  In the photo section the loop at lines 251-254 computes the
caption of the first record that has a `photo_id` key and then calls
`InputMediaPhoto(media_id=..., caption=...)`; that constructor has no
`media_id` parameter and its `media` parameter is required, so the
call raises an uncaught `TypeError` (outside the `try` block, which
ended at line 245) and the handler aborts: `media_group` never
receives an item and `send_media_group` (line 259) is never reached.
Only when no record carries a `photo_id` key does the loop complete,
leaving `media_group` empty, and the "no photos" notice is sent. -/
def generate_and_send_report (summarize : Prompt → Option Str)
    (updates_data : List UpdateData) (report_type : ReportType) : List Effect :=
  let p := build_prompt updates_data report_type
  Effect.reply .generating :: Effect.aiCall p ::
    match summarize p with
    | none => [Effect.reply .genError]
    | some ai_report =>
      Effect.reply .reportHeader :: Effect.reply (.reportBody ai_report) ::
        (if updates_data = [] then []
         else
           Effect.reply .photosHeader ::
             (if updates_data.any (fun u => u.photo_id.isSome) then [Effect.typeError]
              else [Effect.reply .noPhotos]))

/-- Models `daily_report` (src/bot.py lines 167-177): filter today's
records; if none, reply "nothing to report" and stop, otherwise run the
generation pipeline. -/
def daily_report (now : ℤ) (db : List UpdateData)
    (summarize : Prompt → Option Str) : List Effect :=
  let todays_updates := dailyFilter now db
  if todays_updates = [] then [Effect.reply .noUpdatesToday]
  else generate_and_send_report summarize todays_updates .daily

/-- Models `weekly_report` (src/bot.py lines 180-190). -/
def weekly_report (now : ℤ) (db : List UpdateData)
    (summarize : Prompt → Option Str) : List Effect :=
  let weekly_updates := weeklyFilter now db
  if weekly_updates = [] then [Effect.reply .noUpdatesWeek]
  else generate_and_send_report summarize weekly_updates .weekly

/-- A record with its date replaced; used to state window properties. -/
def withDate (u : UpdateData) (t : ℤ) : UpdateData := { u with date := some t }

/-- The non-terminal, in-conversation states `NAME` .. `PHOTO`
(spec: `AwaitingName` .. `AwaitingPhoto`). -/
def activeState (σ : ConvState) : Prop :=
  σ ≠ .idle ∧ σ ≠ .completed ∧ σ ≠ .cancelled

/-- A present, non-empty string field. -/
def strOK (o : Option Str) : Prop := ∃ s, o = some s ∧ s ≠ []

/-- The commit-time shape of a committed record: every string field
present and non-empty, an hours value present, exactly one photo
reference present, and a submission timestamp present. -/
def goodRecord (r : UpdateData) : Prop :=
  strOK r.name ∧ strOK r.function ∧ strOK r.company ∧ strOK r.location ∧
    r.hours_worked.isSome = true ∧ strOK r.update_text ∧ strOK r.planning ∧
    (∃ p, r.photo_id = some p) ∧ r.date.isSome = true

/-- Which fields of the partial record are guaranteed present at each
conversation state, by the transition order of the handlers. -/
def stageInv : ConvState → UpdateData → Prop
  | .FUNCTION, d => strOK d.name
  | .COMPANY, d => strOK d.name ∧ strOK d.function
  | .LOCATION, d => strOK d.name ∧ strOK d.function ∧ strOK d.company
  | .HOURS_WORKED, d => strOK d.name ∧ strOK d.function ∧ strOK d.company ∧ strOK d.location
  | .UPDATE_TEXT, d => strOK d.name ∧ strOK d.function ∧ strOK d.company ∧ strOK d.location ∧
      d.hours_worked.isSome = true
  | .PLANNING, d => strOK d.name ∧ strOK d.function ∧ strOK d.company ∧ strOK d.location ∧
      d.hours_worked.isSome = true ∧ strOK d.update_text
  | .PHOTO, d => strOK d.name ∧ strOK d.function ∧ strOK d.company ∧ strOK d.location ∧
      d.hours_worked.isSome = true ∧ strOK d.update_text ∧ strOK d.planning
  | _, _ => True

/-- Example record used in the caption property: name `"Jan"`, company
`"Acme"`, and a given task description. -/
def janRecord (desc : Str) : UpdateData :=
  { emptyData with name := some (str "Jan"), company := some (str "Acme"), update_text := some desc }

theorem appendsOf_nil : appendsOf [] = [] := rfl

theorem appendsOf_cons_reply (m : MsgKind) (es : List Effect) :
    appendsOf (Effect.reply m :: es) = appendsOf es := rfl

theorem appendsOf_cons_ai (p : Prompt) (es : List Effect) :
    appendsOf (Effect.aiCall p :: es) = appendsOf es := rfl

theorem appendsOf_cons_media (c : List (Str × Str)) (es : List Effect) :
    appendsOf (Effect.sendMediaGroup c :: es) = appendsOf es := rfl

theorem appendsOf_cons_db (r : UpdateData) (es : List Effect) :
    appendsOf (Effect.dbAppend r :: es) = r :: appendsOf es := rfl

theorem appendsOf_append (es1 es2 : List Effect) :
    appendsOf (es1 ++ es2) = appendsOf es1 ++ appendsOf es2 :=
  List.filterMap_append es1 es2 _

theorem mediaSendsOf_nil : mediaSendsOf [] = [] := rfl

theorem mediaSendsOf_cons_reply (m : MsgKind) (es : List Effect) :
    mediaSendsOf (Effect.reply m :: es) = mediaSendsOf es := rfl

theorem mediaSendsOf_cons_ai (p : Prompt) (es : List Effect) :
    mediaSendsOf (Effect.aiCall p :: es) = mediaSendsOf es := rfl

theorem mediaSendsOf_cons_media (c : List (Str × Str)) (es : List Effect) :
    mediaSendsOf (Effect.sendMediaGroup c :: es) = c :: mediaSendsOf es := rfl

theorem mediaSendsOf_cons_db (r : UpdateData) (es : List Effect) :
    mediaSendsOf (Effect.dbAppend r :: es) = mediaSendsOf es := rfl

theorem mediaSendsOf_append (es1 es2 : List Effect) :
    mediaSendsOf (es1 ++ es2) = mediaSendsOf es1 ++ mediaSendsOf es2 :=
  List.filterMap_append es1 es2 _

/-- C1: for every sequence of 8 correctly-typed inputs (7 non-empty
texts whose fifth parses as an hours value, then one photo attachment)
fed to the conversation starting from `NAME` (`AwaitingName`), the run
ends in `completed`, the trace visits `completed` exactly once, and
exactly one record is appended to the store, whose string fields equal
the inputs verbatim and whose hours field is the parsed value. -/
theorem full_run_commits_exactly_one_record
    (n f c l h u p pid : Str) (v : PyFloat) (now : ℤ)
    (hn : n ≠ []) (hf : f ≠ []) (hc : c ≠ []) (hl : l ≠ []) (hh : h ≠ [])
    (hu : u ≠ []) (hp : p ≠ [])
    (hq : pyFloat? (commaToDot h) = some v) :
    (run .NAME emptyData now
        [.text n, .text f, .text c, .text l, .text h, .text u, .text p, .photo pid]).1
      = .completed ∧
    appendsOf (run .NAME emptyData now
        [.text n, .text f, .text c, .text l, .text h, .text u, .text p, .photo pid]).2.2
      = [{ name := some n, function := some f, company := some c, location := some l,
           hours_worked := some v, update_text := some u, planning := some p,
           photo_id := some pid, date := some now }] ∧
    (statesOf .NAME emptyData now
        [.text n, .text f, .text c, .text l, .text h, .text u, .text p, .photo pid]).count
      .completed = 1 := by
  simp [run, step, statesOf, get_name, get_function, get_company, get_location, get_hours,
    get_update_text, get_planning, get_photo, hn, hf, hc, hl, hh, hu, hp, hq,
    appendsOf_append, appendsOf_cons_reply, appendsOf_cons_db, appendsOf_nil,
    List.count_cons, emptyData]

/-- Witness for C1 at a concrete run. -/
theorem full_run_commits_exactly_one_record_witness :
    (run .NAME emptyData 77
        [.text (str "Jan"), .text (str "Electrician"), .text (str "Acme"),
         .text (str "West Wing"), .text (str "8"), .text (str "Wiring done"),
         .text (str "Ready"), .photo (str "PID1")]).1 = .completed ∧
    appendsOf (run .NAME emptyData 77
        [.text (str "Jan"), .text (str "Electrician"), .text (str "Acme"),
         .text (str "West Wing"), .text (str "8"), .text (str "Wiring done"),
         .text (str "Ready"), .photo (str "PID1")]).2.2
      = [{ name := some (str "Jan"), function := some (str "Electrician"),
           company := some (str "Acme"), location := some (str "West Wing"),
           hours_worked := some (PyFloat.finite 8), update_text := some (str "Wiring done"),
           planning := some (str "Ready"), photo_id := some (str "PID1"),
           date := some 77 }] ∧
    (statesOf .NAME emptyData 77
        [.text (str "Jan"), .text (str "Electrician"), .text (str "Acme"),
         .text (str "West Wing"), .text (str "8"), .text (str "Wiring done"),
         .text (str "Ready"), .photo (str "PID1")]).count .completed = 1 :=
  full_run_commits_exactly_one_record (str "Jan") (str "Electrician") (str "Acme")
    (str "West Wing") (str "8") (str "Wiring done") (str "Ready") (str "PID1")
    (PyFloat.finite 8) 77 (by decide) (by decide) (by decide) (by decide) (by decide)
    (by decide) (by decide) (by decide)

/-- C2 (amended): in state `HOURS_WORKED` (`AwaitingHours`), a text
input is accepted iff, after replacing decimal commas with decimal
points, Python `float` parses it — which admits negative values,
infinities (`"inf"`), `"nan"` and underscore-separated digits, not
only non-negative real numbers.  On parse failure the machine stays in
`HOURS_WORKED`, emits the re-prompt, and leaves every field of the
partial record unchanged (in particular the hours field stays unset);
the input `"abc"` is rejected this way and a subsequent `"7,5"` is
accepted and stored as `7.5`, as are `"inf"` (stored as positive
infinity) and `"1_0"` (stored as `10`). -/
theorem hours_validation_and_retry :
    (∀ (d : UpdateData) (s : Str) (now : ℤ), s ≠ [] →
        pyFloat? (commaToDot s) = none →
        step .HOURS_WORKED d (.text s) now = (.HOURS_WORKED, d, [.reply .invalidHours])) ∧
    (∀ (d : UpdateData) (s : Str) (v : PyFloat) (now : ℤ), s ≠ [] →
        pyFloat? (commaToDot s) = some v →
        step .HOURS_WORKED d (.text s) now
          = (.UPDATE_TEXT, { d with hours_worked := some v }, [.reply .promptUpdateText])) ∧
    (∀ (d : UpdateData) (now : ℤ),
        step .HOURS_WORKED d (.text (str "abc")) now
          = (.HOURS_WORKED, d, [.reply .invalidHours])) ∧
    (∀ (d : UpdateData) (now : ℤ),
        step .HOURS_WORKED d (.text (str "7,5")) now
          = (.UPDATE_TEXT, { d with hours_worked := some (.finite ((15 : ℚ) / 2)) },
             [.reply .promptUpdateText])) ∧
    (∀ (d : UpdateData) (now : ℤ),
        step .HOURS_WORKED d (.text (str "inf")) now
          = (.UPDATE_TEXT, { d with hours_worked := some (.inf false) },
             [.reply .promptUpdateText])) ∧
    (∀ (d : UpdateData) (now : ℤ),
        step .HOURS_WORKED d (.text (str "1_0")) now
          = (.UPDATE_TEXT, { d with hours_worked := some (.finite 10) },
             [.reply .promptUpdateText])) := by
  have habc : pyFloat? (commaToDot (str "abc")) = none := by decide
  have h75 : pyFloat? (commaToDot (str "7,5")) = some (.finite ((15 : ℚ) / 2)) := by
    simp +decide [pyFloat?, commaToDot, str, trimPy, pySpace, pySpaceCodes, pyFloatCore,
      parseMantissa, parseUDigits, parseDigitsAux, parseExpPart, decimalDigit?, ndZeros,
      List.find?]
    norm_num
  have hinf : pyFloat? (commaToDot (str "inf")) = some (.inf false) := by decide
  have h10 : pyFloat? (commaToDot (str "1_0")) = some (.finite 10) := by decide
  refine ⟨?_, ?_, ?_, ?_, ?_, ?_⟩
  · intro d s now hs hnone
    simp [step, get_hours, hs, hnone]
  · intro d s v now hs hsome
    simp [step, get_hours, hs, hsome]
  · intro d now
    have hs : str "abc" ≠ [] := by decide
    simp [step, get_hours, hs, habc]
  · intro d now
    have hs : str "7,5" ≠ [] := by decide
    simp [step, get_hours, hs, h75]
  · intro d now
    have hs : str "inf" ≠ [] := by decide
    simp [step, get_hours, hs, hinf]
  · intro d now
    have hs : str "1_0" ≠ [] := by decide
    simp [step, get_hours, hs, h10]

/-- Counterexample to C2 as stated: the claim requires acceptance only
of non-negative real values, but the input `"-5"` parses to the
negative value `-5`, is accepted, and is stored — the machine does not
stay in `HOURS_WORKED` with an unchanged record as the claim predicts.
(`"inf"` likewise refutes the claim: it is accepted although it is not
a real number.) -/
theorem hours_negative_accepted_counterexample :
    step .HOURS_WORKED emptyData (.text (str "-5")) 0
      = (.UPDATE_TEXT, { emptyData with hours_worked := some (.finite (-5)) },
         [.reply .promptUpdateText]) ∧
    (-5 : ℚ) < 0 ∧
    step .HOURS_WORKED emptyData (.text (str "-5")) 0
      ≠ (.HOURS_WORKED, emptyData, [.reply .invalidHours]) ∧
    step .HOURS_WORKED emptyData (.text (str "inf")) 0
      = (.UPDATE_TEXT, { emptyData with hours_worked := some (.inf false) },
         [.reply .promptUpdateText]) := by
  refine ⟨by decide, by norm_num, by decide, by decide⟩

/-- Witness for C2 applying the theorem at concrete inputs. -/
theorem hours_validation_and_retry_witness :
    step .HOURS_WORKED emptyData (.text (str "abc")) 0
      = (.HOURS_WORKED, emptyData, [.reply .invalidHours]) ∧
    step .HOURS_WORKED emptyData (.text (str "8")) 0
      = (.UPDATE_TEXT, { emptyData with hours_worked := some (.finite 8) },
         [.reply .promptUpdateText]) :=
  ⟨hours_validation_and_retry.1 emptyData (str "abc") 0 (by decide) (by decide),
   hours_validation_and_retry.2.1 emptyData (str "8") (.finite 8) 0 (by decide) (by decide)⟩

theorem step_appendsOf_eq_nil_or_completed (σ : ConvState) (d : UpdateData)
    (i : Input) (now : ℤ) :
    appendsOf (step σ d i now).2.2 = [] ∨ (step σ d i now).1 = ConvState.completed := by
  cases i with
  | text s =>
    by_cases hs : s = []
    · left
      simp [step, hs, appendsOf]
    · cases σ <;>
        first
        | (left
           simp [step, hs, get_name, get_function, get_company, get_location,
             get_update_text, get_planning, appendsOf]
           done)
        | (cases hq : pyFloat? (commaToDot s) <;>
            (left
             simp [step, hs, get_hours, hq, appendsOf]))
  | photo fid => cases σ <;> simp [step, get_photo, appendsOf]
  | updateCmd => cases σ <;> simp [step, start_update, appendsOf]
  | cancelCmd => cases σ <;> simp [step, cancel, appendsOf]

theorem run_appendsOf_eq_nil_of_not_completed :
    ∀ (is : List Input) (σ : ConvState) (d : UpdateData) (now : ℤ),
      ConvState.completed ∉ statesOf σ d now is →
      appendsOf (run σ d now is).2.2 = [] := by
  intro is
  induction is with
  | nil => intro σ d now _; rfl
  | cons i is ih =>
    intro σ d now h
    simp only [statesOf, List.mem_cons, not_or] at h
    obtain ⟨h1, h2⟩ := h
    have hstep : appendsOf (step σ d i now).2.2 = [] := by
      rcases step_appendsOf_eq_nil_or_completed σ d i now with he | he
      · exact he
      · exact absurd he.symm h1
    simp [run, appendsOf_append, hstep, ih _ _ _ h2]

/-- C3: from every non-terminal conversation state and every partial
record, `/cancel` transitions to `cancelled`, discards the partial
record (clears `user_data`), emits the cancellation acknowledgment and
appends nothing; moreover any run whose trace never visits `completed`
— in particular one that ends in `cancelled` — appends nothing to the
record store. -/
theorem cancel_discards_and_never_commits :
    (∀ (σ : ConvState) (d : UpdateData) (now : ℤ), activeState σ →
        step σ d .cancelCmd now = (.cancelled, emptyData, [.reply .cancelAck])) ∧
    (∀ (is : List Input) (σ : ConvState) (d : UpdateData) (now : ℤ),
        ConvState.completed ∉ statesOf σ d now is →
        appendsOf (run σ d now is).2.2 = []) := by
  constructor
  · intro σ d now hσ
    obtain ⟨h1, h2, h3⟩ := hσ
    cases σ <;> simp_all [step, cancel]
  · exact run_appendsOf_eq_nil_of_not_completed

/-- Witness for C3: cancelling from `HOURS_WORKED` with a half-filled
record, and a concrete cancelled session appending nothing. -/
theorem cancel_discards_and_never_commits_witness :
    step .HOURS_WORKED { emptyData with name := some (str "Jan") } .cancelCmd 0
      = (.cancelled, emptyData, [.reply .cancelAck]) ∧
    appendsOf (run .NAME emptyData 0
        [.text (str "Jan"), .text (str "Mason"), .cancelCmd, .photo (str "P")]).2.2 = [] :=
  ⟨cancel_discards_and_never_commits.1 .HOURS_WORKED
      { emptyData with name := some (str "Jan") } 0 (by simp [activeState]),
   cancel_discards_and_never_commits.2
      [.text (str "Jan"), .text (str "Mason"), .cancelCmd, .photo (str "P")]
      .NAME emptyData 0 (by decide)⟩

/-- C4: if the requested window filter (daily or weekly) yields no
records, the report command replies with its "nothing to report"
message and stops: the external summarization call is not invoked and
no media batch is sent. -/
theorem empty_window_short_circuits :
    (∀ (now : ℤ) (db : List UpdateData) (sm : Prompt → Option Str),
        dailyFilter now db = [] →
        daily_report now db sm = [.reply .noUpdatesToday] ∧
        (∀ p, Effect.aiCall p ∉ daily_report now db sm) ∧
        (∀ c, Effect.sendMediaGroup c ∉ daily_report now db sm)) ∧
    (∀ (now : ℤ) (db : List UpdateData) (sm : Prompt → Option Str),
        weeklyFilter now db = [] →
        weekly_report now db sm = [.reply .noUpdatesWeek] ∧
        (∀ p, Effect.aiCall p ∉ weekly_report now db sm) ∧
        (∀ c, Effect.sendMediaGroup c ∉ weekly_report now db sm)) := by
  constructor
  · intro now db sm h
    simp [daily_report, h]
  · intro now db sm h
    simp [weekly_report, h]

/-- Witness for C4 on the empty store. -/
theorem empty_window_short_circuits_witness :
    daily_report 0 [] (fun _ => none) = [.reply .noUpdatesToday] ∧
    weekly_report 0 [] (fun _ => none) = [.reply .noUpdatesWeek] :=
  ⟨(empty_window_short_circuits.1 0 [] (fun _ => none) rfl).1,
   (empty_window_short_circuits.2 0 [] (fun _ => none) rfl).1⟩

/-- C5: when the external summarization call fails on a non-empty
filtered sequence, the pipeline emits exactly the "generating" notice,
the external call, and one fixed user-facing failure message carrying
no error payload: no report body is emitted, no media batch is sent,
and nothing is appended to the record store. -/
theorem generation_failure_surfaces_single_message :
    ∀ (sm : Prompt → Option Str) (l : List UpdateData) (rt : ReportType),
      l ≠ [] →
      sm (build_prompt l rt) = none →
      generate_and_send_report sm l rt
        = [.reply .generating, .aiCall (build_prompt l rt), .reply .genError] ∧
      (generate_and_send_report sm l rt).count (.reply .genError) = 1 ∧
      (∀ s, Effect.reply (.reportBody s) ∉ generate_and_send_report sm l rt) ∧
      mediaSendsOf (generate_and_send_report sm l rt) = [] ∧
      appendsOf (generate_and_send_report sm l rt) = [] := by
  intro sm l rt hl hfail
  have he : generate_and_send_report sm l rt
      = [.reply .generating, .aiCall (build_prompt l rt), .reply .genError] := by
    simp [generate_and_send_report, hfail]
  refine ⟨he, ?_, ?_, ?_, ?_⟩
  · rw [he]
    simp [List.count_cons]
  · intro s
    rw [he]
    simp
  · rw [he]
    rfl
  · rw [he]
    rfl

/-- Witness for C5 with a one-record sequence and a failing call. -/
theorem generation_failure_surfaces_single_message_witness :
    generate_and_send_report (fun _ => none) [emptyData] .daily
      = [.reply .generating, .aiCall (build_prompt [emptyData] .daily),
         .reply .genError] ∧
    (generate_and_send_report (fun _ => none) [emptyData] .daily).count
      (.reply .genError) = 1 ∧
    (∀ s, Effect.reply (.reportBody s) ∉
        generate_and_send_report (fun _ => none) [emptyData] .daily) ∧
    mediaSendsOf (generate_and_send_report (fun _ => none) [emptyData] .daily) = [] ∧
    appendsOf (generate_and_send_report (fun _ => none) [emptyData] .daily) = [] :=
  generation_failure_surfaces_single_message (fun _ => none) [emptyData] .daily
    (by simp) rfl

/-- C6 (code bug evaluation): on a successful generation over a
record that carries a photo reference, the `InputMediaPhoto(media_id=
...)` call at src/bot.py line 254 raises an uncaught `TypeError` at
the first loop iteration — the constructor has no `media_id` parameter
and its required `media` parameter is missing — so the handler aborts
after the photos header and `send_media_group` is never invoked: no
media batch, chunked or otherwise, is ever handed to the transport,
contrary to the claimed chunked-send behaviour. -/
theorem media_sends_never_performed :
    generate_and_send_report (fun _ => some (str "ok"))
        [{ emptyData with photo_id := some (str "P") }] .daily
      = [.reply .generating,
         .aiCall (build_prompt [{ emptyData with photo_id := some (str "P") }] .daily),
         .reply .reportHeader, .reply (.reportBody (str "ok")),
         .reply .photosHeader, .typeError] ∧
    mediaSendsOf (generate_and_send_report (fun _ => some (str "ok"))
        [{ emptyData with photo_id := some (str "P") }] .daily) = [] := by
  constructor
  · decide
  · decide

/-- C7 (code bug evaluation): the caption string computed at
src/bot.py lines 253-254 does equal the template
`"{name} ({company}) - {taskDescription}"` truncated to 1024
characters — for name `"Jan"`, company `"Acme"` and a 2000-character
description it is exactly 1024 characters long and starts with
`"Jan (Acme) - "` — but it is never attached to a media item: the
`InputMediaPhoto(media_id=...)` call that would receive it raises an
uncaught `TypeError`, so the handler aborts and no captioned media
pair is ever built or sent. -/
theorem caption_computed_but_never_attached :
    (∀ u : UpdateData,
        caption u = (getS u.name ++ str " (" ++ getS u.company ++ str ") - " ++
          getS u.update_text).take 1024) ∧
    (caption (janRecord (List.replicate 2000 'x'))).length = 1024 ∧
    str "Jan (Acme) - " <+: caption (janRecord (List.replicate 2000 'x')) ∧
    generate_and_send_report (fun _ => some (str "ok"))
        [{ janRecord (List.replicate 2000 'x') with photo_id := some (str "P2") }] .daily
      = [.reply .generating,
         .aiCall (build_prompt
           [{ janRecord (List.replicate 2000 'x') with photo_id := some (str "P2") }] .daily),
         .reply .reportHeader, .reply (.reportBody (str "ok")),
         .reply .photosHeader, .typeError] ∧
    mediaSendsOf (generate_and_send_report (fun _ => some (str "ok"))
        [{ janRecord (List.replicate 2000 'x') with photo_id := some (str "P2") }] .daily)
      = [] := by
  have key : ∀ desc : Str, desc.length = 2000 →
      (caption (janRecord desc)).length = 1024 ∧
      str "Jan (Acme) - " <+: caption (janRecord desc) := by
    intro desc hdesc
    have lit : str "Jan" ++ (str " (" ++ (str "Acme" ++ str ") - "))
        = str "Jan (Acme) - " := by decide
    have e1 : caption (janRecord desc) = (str "Jan (Acme) - " ++ desc).take 1024 := by
      simp only [caption, getS, janRecord, emptyData, Option.getD_some]
      rw [← lit]
      simp [List.append_assoc]
    have l13 : (str "Jan (Acme) - ").length = 13 := by decide
    constructor
    · rw [e1, List.take_append_eq_append_take]
      simp [List.length_append, List.length_take, hdesc, l13]
    · rw [e1, List.take_append_eq_append_take,
        List.take_of_length_le (show (str "Jan (Acme) - ").length ≤ 1024 by decide)]
      exact List.prefix_append _ _
  obtain ⟨k1, k2⟩ := key (List.replicate 2000 'x') (List.length_replicate 2000 'x')
  exact ⟨fun u => rfl, k1, k2, rfl, rfl⟩

/-- C8: the daily window selects exactly the records whose timestamp
has the same local calendar date as now (a record from 00:01 today is
kept, one from yesterday 23:59 is dropped), and the weekly window
selects exactly the records with timestamp at least now minus 7 days
(a record from exactly 6 days ago is kept, one from 8 days ago is
dropped). -/
theorem window_selection :
    (∀ (now : ℤ) (db : List UpdateData) (u : UpdateData),
        u ∈ dailyFilter now db ↔
          u ∈ db ∧ ∃ t, u.date = some t ∧ dateOf t = dateOf now) ∧
    (∀ (now : ℤ) (db : List UpdateData) (u : UpdateData),
        u ∈ weeklyFilter now db ↔
          u ∈ db ∧ ∃ t, u.date = some t ∧ now - 7 * minutesPerDay ≤ t) ∧
    (∀ (now : ℤ) (u v : UpdateData),
        dailyFilter now
            [withDate u (dateOf now * minutesPerDay + 1),
              withDate v (dateOf now * minutesPerDay - 1)]
          = [withDate u (dateOf now * minutesPerDay + 1)]) ∧
    (∀ (now : ℤ) (u v : UpdateData),
        weeklyFilter now
            [withDate u (now - 6 * minutesPerDay), withDate v (now - 8 * minutesPerDay)]
          = [withDate u (now - 6 * minutesPerDay)]) := by
  refine ⟨?_, ?_, ?_, ?_⟩
  · intro now db u
    rw [dailyFilter, List.mem_filter]
    cases hu : u.date with
    | none => simp [hu]
    | some t => simp [hu]
  · intro now db u
    rw [weeklyFilter, List.mem_filter]
    cases hu : u.date with
    | none => simp [hu]
    | some t => simp [hu]
  · intro now u v
    have h1 : dateOf (dateOf now * minutesPerDay + 1) = dateOf now := by
      simp only [dateOf, minutesPerDay]
      omega
    have h2 : ¬(dateOf (dateOf now * minutesPerDay - 1) = dateOf now) := by
      simp only [dateOf, minutesPerDay]
      omega
    simp [dailyFilter, List.filter_cons, withDate, h1, h2]
  · intro now u v
    simp only [weeklyFilter, List.filter_cons, List.filter_nil, withDate, minutesPerDay,
      decide_eq_true_eq]
    split_ifs with hA hB hB <;> first | rfl | (exfalso; omega)

/-- Witness for C8 at a concrete clock value. -/
theorem window_selection_witness :
    dailyFilter 100000
        [withDate emptyData (dateOf 100000 * minutesPerDay + 1),
          withDate emptyData (dateOf 100000 * minutesPerDay - 1)]
      = [withDate emptyData (dateOf 100000 * minutesPerDay + 1)] ∧
    weeklyFilter 100000
        [withDate emptyData (100000 - 6 * minutesPerDay),
          withDate emptyData (100000 - 8 * minutesPerDay)]
      = [withDate emptyData (100000 - 6 * minutesPerDay)] :=
  ⟨window_selection.2.2.1 100000 emptyData emptyData,
   window_selection.2.2.2 100000 emptyData emptyData⟩

theorem step_preserves_stageInv (σ : ConvState) (d : UpdateData) (i : Input) (now : ℤ)
    (h : stageInv σ d) :
    stageInv (step σ d i now).1 (step σ d i now).2.1 ∧
    ∀ r ∈ appendsOf (step σ d i now).2.2, goodRecord r := by
  cases i with
  | text s =>
    by_cases hs : s = []
    · subst hs
      exact ⟨by simpa [step] using h, by simp [step, appendsOf]⟩
    · cases σ <;>
        cases hq : pyFloat? (commaToDot s) <;>
          simp_all [step, hs, get_name, get_function, get_company, get_location,
            get_hours, get_update_text, get_planning, hq, stageInv, appendsOf, strOK]
  | photo fid =>
    cases σ <;>
      simp_all [step, get_photo, stageInv, appendsOf, goodRecord, strOK]
  | updateCmd =>
    cases σ <;> simp_all [step, start_update, stageInv, appendsOf]
  | cancelCmd =>
    cases σ <;> simp_all [step, cancel, stageInv, appendsOf]

theorem run_commits_goodRecords :
    ∀ (is : List Input) (σ : ConvState) (d : UpdateData) (now : ℤ),
      stageInv σ d →
      ∀ r ∈ appendsOf (run σ d now is).2.2, goodRecord r := by
  intro is
  induction is with
  | nil =>
    intro σ d now h r hr
    simp [run, appendsOf] at hr
  | cons i is ih =>
    intro σ d now h r hr
    simp only [run, appendsOf_append, List.mem_append] at hr
    rcases hr with hr | hr
    · exact (step_preserves_stageInv σ d i now h).2 r hr
    · exact ih _ _ _ (step_preserves_stageInv σ d i now h).1 r hr

/-- C9 (amended): every record committed to the store by any run of
the machine from the idle start state has all six string fields
present and non-empty, an hours value present (the parsed number,
whose sign is NOT constrained by the code), exactly one photo
reference, and a submission timestamp. -/
theorem committed_record_invariant :
    ∀ (now : ℤ) (is : List Input) (r : UpdateData),
      r ∈ appendsOf (run .idle emptyData now is).2.2 → goodRecord r :=
  fun now is r hr => run_commits_goodRecords is .idle emptyData now trivial r hr

/-- Counterexample to C9 as stated: a full session whose hours input
is `"-5"` commits a record whose hours value is negative, so the
claimed `hoursWorked ≥ 0` part of the invariant fails on the code. -/
theorem committed_negative_hours_counterexample :
    appendsOf (run .idle emptyData 0
        [.updateCmd, .text (str "Jan"), .text (str "Mason"), .text (str "Acme"),
         .text (str "West"), .text (str "-5"), .text (str "Wall"), .text (str "OK"),
         .photo (str "P")]).2.2
      = [{ name := some (str "Jan"), function := some (str "Mason"),
           company := some (str "Acme"), location := some (str "West"),
           hours_worked := some (PyFloat.finite (-5)), update_text := some (str "Wall"),
           planning := some (str "OK"), photo_id := some (str "P"), date := some 0 }] ∧
    (-5 : ℚ) < 0 := by
  constructor
  · decide
  · norm_num

/-- Witness for C9 on a concrete committed record. -/
theorem committed_record_invariant_witness :
    goodRecord { name := some (str "Jan"), function := some (str "Mason"),
                 company := some (str "Acme"), location := some (str "West"),
                 hours_worked := some (PyFloat.finite 8), update_text := some (str "Wall"),
                 planning := some (str "OK"), photo_id := some (str "P"),
                 date := some 0 } :=
  committed_record_invariant 0
    [.updateCmd, .text (str "Jan"), .text (str "Mason"), .text (str "Acme"),
     .text (str "West"), .text (str "8"), .text (str "Wall"), .text (str "OK"),
     .photo (str "P")] _ (by decide)

theorem step_NAME_cases (i : Input) (now : ℤ) :
    (∀ d, step .NAME d i now = (.NAME, d, [])) ∨
    (∃ res, ∀ d, step .NAME d i now = res) := by
  cases i with
  | text s =>
    by_cases hs : s = []
    · left
      intro d
      simp [step, hs]
    · right
      exact ⟨get_name s, fun d => by simp [step, hs]⟩
  | photo fid =>
    left
    intro d
    simp [step]
  | updateCmd =>
    left
    intro d
    simp [step]
  | cancelCmd =>
    right
    exact ⟨(.cancelled, emptyData, [.reply .cancelAck]), fun d => by simp [step, cancel]⟩

/-- C10: the first accepted text of a session (handler `get_name`,
reached from `NAME`) replaces the partial record wholesale with a
fresh record holding only the supplied name; consequently a session
run from `NAME` has the same state trace and the same effects — hence
commits exactly the same records — regardless of any partial data left
over from earlier completed or cancelled sessions, and as soon as the
session leaves `NAME` even its partial record is independent of the
leftover data. -/
theorem fresh_session_independent_of_leftovers :
    (∀ (d : UpdateData) (s : Str) (now : ℤ), s ≠ [] →
        step .NAME d (.text s) now
          = (.FUNCTION, { emptyData with name := some s }, [.reply .promptFunction])) ∧
    (∀ (is : List Input) (d d2 : UpdateData) (now : ℤ),
        (run .NAME d now is).1 = (run .NAME d2 now is).1 ∧
        (run .NAME d now is).2.2 = (run .NAME d2 now is).2.2 ∧
        ((run .NAME d now is).1 ≠ .NAME →
          (run .NAME d now is).2.1 = (run .NAME d2 now is).2.1)) := by
  constructor
  · intro d s now hs
    simp [step, hs, get_name]
  · intro is
    induction is with
    | nil =>
      intro d d2 now
      exact ⟨rfl, rfl, fun hne => absurd rfl hne⟩
    | cons i is ih =>
      intro d d2 now
      rcases step_NAME_cases i now with hIg | ⟨res, hRes⟩
      · obtain ⟨ih1, ih2, ih3⟩ := ih d d2 now
        refine ⟨?_, ?_, ?_⟩ <;>
          simp only [run, hIg d, hIg d2]
        · exact ih1
        · exact ih2
        · exact ih3
      · have e1 : run .NAME d now (i :: is) = run .NAME d2 now (i :: is) := by
          simp only [run, hRes d, hRes d2]
        rw [e1]
        exact ⟨rfl, rfl, fun _ => rfl⟩

/-- Witness for C10 with leftover data from an earlier session. -/
theorem fresh_session_independent_of_leftovers_witness :
    step .NAME { emptyData with planning := some (str "old") } (.text (str "Jan")) 0
      = (.FUNCTION, { emptyData with name := some (str "Jan") }, [.reply .promptFunction]) ∧
    (run .NAME { emptyData with planning := some (str "old") } 0 [.text (str "Jan")]).2.2
      = (run .NAME emptyData 0 [.text (str "Jan")]).2.2 :=
  ⟨fresh_session_independent_of_leftovers.1 { emptyData with planning := some (str "old") }
      (str "Jan") 0 (by decide),
   (fresh_session_independent_of_leftovers.2 [.text (str "Jan")]
      { emptyData with planning := some (str "old") } emptyData 0).2.1⟩
